import Mathlib

/-!
Shallow embedding of the composition state machine of `src/mozart/hooks.py`
(class `ComposeHook`), the core of the Mozart compose-key program.

External collaborators (`user32.ToUnicode`, `user32.GetForegroundWindow`,
`user32.SendInput`, `user32.MessageBeep`, the state-change callback) are
modelled as parameters and as an explicit effect trace; the mutable object
state becomes explicit state passing.
-/

namespace Mozart

/-- Modelled from the spec: the module `mozart.win32.constants` is imported by
`hooks.py` but is not part of the given sources; these are the standard Win32
numeric values of the names `hooks.py` uses (`LLKHF_UP = 0x80`,
`LLKHF_INJECTED = 0x10`, `VK_LSHIFT = 0xA0`, `VK_RSHIFT = 0xA1`,
`VK_SHIFT = 0x10`, `VK_PACKET = 0xE7`, `VK_ESCAPE = 0x1B`). -/
def LLKHF_UP : Nat := 128

/-- Win32 `LLKHF_INJECTED` flag bit (see `LLKHF_UP` for provenance). -/
def LLKHF_INJECTED : Nat := 16

/-- Win32 virtual-key code of the left shift key. -/
def VK_LSHIFT : Nat := 160

/-- Win32 virtual-key code of the right shift key. -/
def VK_RSHIFT : Nat := 161

/-- Win32 virtual-key code of the generic shift key (combined slot). -/
def VK_SHIFT : Nat := 16

/-- Win32 virtual-key code `VK_PACKET` (synthesized unicode packet). -/
def VK_PACKET : Nat := 231

/-- Win32 virtual-key code of the escape key (the cancel key). -/
def VK_ESCAPE : Nat := 27

/-- A low-level keyboard event, the relevant fields of `KBDLLHOOKSTRUCT`:
virtual-key code, hardware scan code and the flag bits. -/
structure KeyEvent where
  vkCode : Nat
  scanCode : Nat
  flags : Nat
  deriving Repr, DecidableEq

/-- `hooks.py` line 10: `isKeyDown(flags)` — the `LLKHF_UP` bit is clear. -/
def isKeyDown (flags : Nat) : Bool := flags &&& LLKHF_UP == 0

/-- `hooks.py` line 14: `isKeyUp(flags) = not isKeyDown(flags)`. -/
def isKeyUp (flags : Nat) : Bool := !isKeyDown flags

/-- The construction-time configuration of `ComposeHook`:
* `hotKey` — the virtual-key code initiating a composition;
* `compositions` — the composition dictionary; `compositions ks` models
  `self.compositions.get(tuple(ks))` (the dictionary built by the loader is
  keyed by 2-tuples of ordinals, a list of any other length yields `none`);
* `toUnicode` — the outcome of the external `user32.ToUnicode` collaborator
  for a (vkCode, scanCode, keyboardState) triple: `none` models a return
  value of `0` (no translation), `some o` a successful translation to the
  ordinal `o`. -/
structure HookConfig where
  hotKey : Nat
  compositions : List Nat → Option Nat
  toUnicode : Nat → Nat → (Nat → Nat) → Option Nat

/-- The mutable state of a `ComposeHook` instance (`__init__`, lines 61-72):
`keyboardState` is the 256-slot modifier snapshot (a byte per virtual key,
initial content supplied by `GetKeyboardState`), `targetWindow` the foreground
window recorded at composition start (`None` initially), `composeDepth` the
nesting counter, `composition` the pending-output buffer of ordinals awaiting
injection, `composeKeys` the current level's buffered key ordinals, and
`lastKey` the `_lastKey` (vkCode, scanCode) pair. -/
structure ComposeState where
  keyboardState : Nat → Nat
  targetWindow : Option Nat
  composeDepth : Int
  composition : List Nat
  composeKeys : List Nat
  lastKey : Option (Nat × Nat)

/-- Observable calls into the external collaborators, in order:
`notify s` is `self.callback(s)`, `sendInput cs` is the `user32.SendInput`
call synthesizing a unicode key-down/key-up pair for each ordinal of `cs`,
and `beep` is `user32.MessageBeep(-1)` (the failure signal). -/
inductive Effect where
  | notify (s : String)
  | sendInput (cs : List Nat)
  | beep
  deriving Repr, DecidableEq

/-- `ComposeHook.setShift` (lines 74-85): on a left/right shift event the
slot of that key is set to `chr(LLKHF_UP)` on key-down and `chr(0)` on
key-up, and the combined `VK_SHIFT` slot is recomputed as the bitwise-or of
the two sided slots. Any other event leaves the state untouched. -/
def setShift (e : KeyEvent) (s : ComposeState) : ComposeState :=
  if e.vkCode = VK_LSHIFT ∨ e.vkCode = VK_RSHIFT then
    let v : Nat := if isKeyDown e.flags then LLKHF_UP else 0
    let ks1 := Function.update s.keyboardState e.vkCode v
    let ks2 := Function.update ks1 VK_SHIFT (ks1 VK_LSHIFT ||| ks1 VK_RSHIFT)
    { s with keyboardState := ks2 }
  else s

/-- `ComposeHook.sendInput` (lines 87-112): if the composition buffer is
empty nothing happens (`if not numInputs: return`); otherwise the buffered
ordinals are sent as one `SendInput` call (two `INPUT` records per ordinal,
abstracted into the effect's payload) and the buffer is cleared. -/
def sendInput (s : ComposeState) : ComposeState × List Effect :=
  if s.composition.isEmpty then (s, [])
  else ({ s with composition := [] }, [Effect.sendInput s.composition])

/-- `ComposeHook.translateKey` (lines 114-140): a `VK_PACKET` event carries
its ordinal in the scan code; otherwise `ToUnicode` is consulted against the
current keyboard state, a zero return yielding `(vkCode, False)` and a
successful one `(ordinal, True)`. -/
def translateKey (cfg : HookConfig) (ks : Nat → Nat) (vkCode scanCode : Nat) :
    Nat × Bool :=
  if vkCode = VK_PACKET then (scanCode, true)
  else
    match cfg.toUnicode vkCode scanCode ks with
    | none => (vkCode, false)
    | some o => (o, true)

/-- `ComposeHook.stopComposing` (lines 187-197): clear `composeKeys` and the
pending `composition`, zero `composeDepth`, and fire the `done` callback. -/
def stopComposing (s : ComposeState) : ComposeState × List Effect :=
  ({ s with composeKeys := [], composition := [], composeDepth := 0 },
   [Effect.notify "done"])

/-- `ComposeHook.startComposing` (lines 161-173): trash the old composing
state via `stopComposing` (which fires `done`), record the foreground window
as `targetWindow`, clear `composeKeys`, increment `composeDepth`, and fire
the `start` callback. -/
def startComposing (fg : Nat) (s : ComposeState) : ComposeState × List Effect :=
  let r := stopComposing s
  ({ r.1 with
      targetWindow := some fg
      composeKeys := []
      composeDepth := r.1.composeDepth + 1 },
   r.2 ++ [Effect.notify "start"])

/-- `ComposeHook.doneComposing` (lines 175-185): clear `composeKeys`,
decrement `composeDepth`, send any buffered input, and fire `done` exactly
when the depth has reached zero. -/
def doneComposing (s : ComposeState) : ComposeState × List Effect :=
  let s1 : ComposeState := { s with composeKeys := [], composeDepth := s.composeDepth - 1 }
  let r := sendInput s1
  if r.1.composeDepth = 0 then (r.1, r.2 ++ [Effect.notify "done"])
  else r

/-- `ComposeHook.compose` (lines 142-159): look the buffered keys up in the
composition dictionary (an empty buffer looks nothing up); on success append
the result to the pending composition buffer, on failure beep; in either
case finish the level via `doneComposing`. -/
def compose (cfg : HookConfig) (s : ComposeState) : ComposeState × List Effect :=
  let comp : Option Nat :=
    if s.composeKeys.isEmpty then none else cfg.compositions s.composeKeys
  match comp with
  | some c => doneComposing { s with composition := s.composition ++ [c] }
  | none =>
      let r := doneComposing s
      (r.1, Effect.beep :: r.2)

/-- Result of one `proc` call: the successor state, the ordered trace of
collaborator calls, and the boolean returned to the hook chain (`true` =
event consumed). -/
structure ProcResult where
  state : ComposeState
  effects : List Effect
  consumed : Bool

/-- The body of `ComposeHook.proc` (lines 199-249) after the initial
`setShift` call: classification of the event against the already
shift-updated state `s`, translating against `s.keyboardState`. The branches
are, in source order: focus-loss abort, redundant key-up suppression,
injected-event handling, `_lastKey` recording, hotkey press, compose-buffer
accumulation (with escape cancel and two-key resolution), and the
not-consumed fallthrough that clears `_lastKey`. -/
def procCore (cfg : HookConfig) (fg : Nat) (e : KeyEvent) (s : ComposeState) :
    ProcResult :=
  let key : Nat × Nat := (e.vkCode, e.scanCode)
  let t := translateKey cfg s.keyboardState e.vkCode e.scanCode
  let tkey := t.1
  let translated := t.2
  if s.composeDepth ≠ 0 ∧ s.targetWindow ≠ some fg then
    let r := stopComposing s
    ⟨r.1, r.2, false⟩
  else if isKeyUp e.flags = true ∧ (some key = s.lastKey ∨ tkey ∈ s.composeKeys) then
    ⟨s, [], true⟩
  else if e.flags &&& LLKHF_INJECTED ≠ 0 then
    if s.composeDepth ≠ 0 then
      ⟨{ s with composeKeys := s.composeKeys ++ [tkey] }, [], true⟩
    else ⟨s, [], false⟩
  else
    let s2 : ComposeState := { s with lastKey := some key }
    if e.vkCode = cfg.hotKey then
      let r := startComposing fg s2
      ⟨r.1, r.2, true⟩
    else if translated = true ∧ s2.composeDepth ≠ 0 then
      if e.vkCode = VK_ESCAPE then
        let r := stopComposing s2
        ⟨r.1, r.2, true⟩
      else
        let s3 : ComposeState := { s2 with composeKeys := s2.composeKeys ++ [tkey] }
        if s3.composeKeys.length = 2 then
          let r := compose cfg s3
          ⟨r.1, Effect.notify "key" :: r.2, true⟩
        else ⟨s3, [Effect.notify "key"], true⟩
    else ⟨{ s2 with lastKey := none }, [], false⟩

/-- `ComposeHook.proc` (lines 199-249): sanitise the shift state first
(line 200), then classify the event; `fg` is the value the external
`GetForegroundWindow` collaborator returns during this call. -/
def proc (cfg : HookConfig) (fg : Nat) (e : KeyEvent) (s : ComposeState) :
    ProcResult :=
  procCore cfg fg e (setShift e s)

/-- The state `__init__` (lines 61-72) builds: `GetKeyboardState` fills the
keyboard snapshot (modelled as an arbitrary `ks`), no target window, zero
depth, empty buffers, no last key. -/
def initState (ks : Nat → Nat) : ComposeState :=
  { keyboardState := ks
    targetWindow := none
    composeDepth := 0
    composition := []
    composeKeys := []
    lastKey := none }

/-- States reachable from the initial state by any sequence of `proc` calls
(any event, any foreground window) and external `stopComposing` calls (the
idle timer and the disable path call it directly). -/
inductive Reachable (cfg : HookConfig) : ComposeState → Prop where
  | init (ks : Nat → Nat) : Reachable cfg (initState ks)
  | step (fg : Nat) (e : KeyEvent) {s : ComposeState} :
      Reachable cfg s → Reachable cfg (proc cfg fg e s).state
  | abort {s : ComposeState} :
      Reachable cfg s → Reachable cfg (stopComposing s).1

/-! Concrete instances used to evaluate the model at specific inputs. -/

/-- A sample configuration: hotkey 255, a table mapping the ordinal pair
(97, 98) to 230 (so hotkey-a-b composes to 230), and a translation oracle
mapping virtual keys 65 and 66 to ordinals 97 and 98 and failing elsewhere. -/
def exCfg : HookConfig where
  hotKey := 255
  compositions := fun l => if l = [97, 98] then some 230 else none
  toUnicode := fun vk _ _ =>
    if vk = 65 then some 97 else if vk = 66 then some 98 else none

/-- An all-zero keyboard snapshot. -/
def exKs : Nat → Nat := fun _ => 0

/-- A state one hotkey press into a composition: depth 1, empty buffers,
target window 5. -/
def exDepth1 : ComposeState :=
  { initState exKs with targetWindow := some 5, composeDepth := 1 }

/-- A state mid-composition: depth 1 with one buffered key ordinal 97
(virtual key 65 was pressed and buffered). -/
def exBuf1 : ComposeState :=
  { exDepth1 with composeKeys := [97], lastKey := some (65, 30) }

/-- Key-down of virtual key 65 (translates to ordinal 97 under `exCfg`). -/
def evA : KeyEvent := ⟨65, 30, 0⟩

/-- Key-down of virtual key 66 (translates to ordinal 98 under `exCfg`). -/
def evB : KeyEvent := ⟨66, 48, 0⟩

/-- Key-down of virtual key 90 (untranslatable under `exCfg`). -/
def evZ : KeyEvent := ⟨90, 20, 0⟩

/-- Non-injected key-down of the hotkey of `exCfg`. -/
def evHot : KeyEvent := ⟨255, 0, 0⟩

/-- Injected (flag bit 16) key-down of virtual key 66. -/
def evInjB : KeyEvent := ⟨66, 48, 16⟩

/-- A configuration whose hotkey is the left shift key itself; nothing
translates and the table is empty. -/
def cfgShiftHot : HookConfig where
  hotKey := 160
  compositions := fun _ => none
  toUnicode := fun _ _ _ => none

/-- A keyboard snapshot with the left-shift and combined-shift slots down
(value 128), as `setShift` records after a left-shift key-down. -/
def ksShiftDown : Nat → Nat :=
  fun i => if i = 160 then 128 else if i = 16 then 128 else 0

/-- The state after pressing the left-shift hotkey of `cfgShiftHot`: depth 1,
left shift held, `_lastKey` the shift key-down. -/
def exShiftHeld : ComposeState :=
  { initState ksShiftDown with
      targetWindow := some 3
      composeDepth := 1
      lastKey := some (160, 42) }

/-- Non-injected key-up (flag bit 128) of the left shift key. -/
def evShiftUp : KeyEvent := ⟨160, 42, 128⟩

/-! Projection lemmas: `setShift` touches only the keyboard snapshot, and
the classification helpers never touch it. -/

theorem setShift_targetWindow (e : KeyEvent) (s : ComposeState) :
    (setShift e s).targetWindow = s.targetWindow := by
  unfold setShift; split <;> rfl

theorem setShift_composeDepth (e : KeyEvent) (s : ComposeState) :
    (setShift e s).composeDepth = s.composeDepth := by
  unfold setShift; split <;> rfl

theorem setShift_composition (e : KeyEvent) (s : ComposeState) :
    (setShift e s).composition = s.composition := by
  unfold setShift; split <;> rfl

theorem setShift_composeKeys (e : KeyEvent) (s : ComposeState) :
    (setShift e s).composeKeys = s.composeKeys := by
  unfold setShift; split <;> rfl

theorem setShift_lastKey (e : KeyEvent) (s : ComposeState) :
    (setShift e s).lastKey = s.lastKey := by
  unfold setShift; split <;> rfl

theorem sendInput_keyboardState (s : ComposeState) :
    (sendInput s).1.keyboardState = s.keyboardState := by
  unfold sendInput; split <;> rfl

theorem sendInput_composeDepth (s : ComposeState) :
    (sendInput s).1.composeDepth = s.composeDepth := by
  unfold sendInput; split <;> rfl

theorem doneComposing_keyboardState (s : ComposeState) :
    (doneComposing s).1.keyboardState = s.keyboardState := by
  unfold doneComposing
  dsimp only
  split <;> simp [sendInput_keyboardState]

theorem doneComposing_composeDepth (s : ComposeState) :
    (doneComposing s).1.composeDepth = s.composeDepth - 1 := by
  unfold doneComposing
  dsimp only
  split <;> simp [sendInput_composeDepth]

theorem compose_keyboardState (cfg : HookConfig) (s : ComposeState) :
    (compose cfg s).1.keyboardState = s.keyboardState := by
  unfold compose
  dsimp only
  split <;> simp [doneComposing_keyboardState]

theorem compose_composeDepth (cfg : HookConfig) (s : ComposeState) :
    (compose cfg s).1.composeDepth = s.composeDepth - 1 := by
  unfold compose
  dsimp only
  split <;> simp [doneComposing_composeDepth]

theorem startComposing_composeDepth (fg : Nat) (s : ComposeState) :
    (startComposing fg s).1.composeDepth = 1 := rfl

theorem procCore_keyboardState (cfg : HookConfig) (fg : Nat) (e : KeyEvent)
    (s : ComposeState) :
    (procCore cfg fg e s).state.keyboardState = s.keyboardState := by
  unfold procCore
  dsimp only
  split_ifs <;>
    simp [stopComposing, startComposing, compose_keyboardState]

/-! Step lemmas characterising one `proc` call on a successfully translated,
non-injected, non-hotkey, non-escape key-down while composing with the
foreground window unchanged. -/

theorem proc_first_key (cfg : HookConfig) (fg : Nat) (e : KeyEvent)
    (s : ComposeState) (o : Nat)
    (htw : s.targetWindow = some fg)
    (hdepth : s.composeDepth ≠ 0)
    (hk : s.composeKeys = [])
    (hd : isKeyDown e.flags = true)
    (hni : e.flags &&& LLKHF_INJECTED = 0)
    (hh : e.vkCode ≠ cfg.hotKey)
    (he : e.vkCode ≠ VK_ESCAPE)
    (ht : translateKey cfg (setShift e s).keyboardState e.vkCode e.scanCode = (o, true)) :
    proc cfg fg e s =
      ⟨{ setShift e s with lastKey := some (e.vkCode, e.scanCode), composeKeys := [o] },
       [Effect.notify "key"], true⟩ := by
  have hup : isKeyUp e.flags = false := by simp [isKeyUp, hd]
  unfold proc procCore
  dsimp only
  rw [ht]
  dsimp only
  simp only [setShift_composeDepth, setShift_targetWindow, setShift_composeKeys,
    setShift_lastKey, htw, hup, hni, hk, hdepth]
  rw [if_neg (by simp), if_neg (by simp), if_neg (by simp), if_neg hh]
  rw [if_pos (by exact ⟨trivial, hdepth⟩)]
  rw [if_neg he, if_neg (by simp)]
  simp

theorem proc_second_key_hit (cfg : HookConfig) (fg : Nat) (e : KeyEvent)
    (s : ComposeState) (k o r : Nat)
    (htw : s.targetWindow = some fg)
    (hdep1 : s.composeDepth = 1)
    (hk : s.composeKeys = [k])
    (hcomp : s.composition = [])
    (hd : isKeyDown e.flags = true)
    (hni : e.flags &&& LLKHF_INJECTED = 0)
    (hh : e.vkCode ≠ cfg.hotKey)
    (he : e.vkCode ≠ VK_ESCAPE)
    (ht : translateKey cfg (setShift e s).keyboardState e.vkCode e.scanCode = (o, true))
    (htab : cfg.compositions [k, o] = some r) :
    proc cfg fg e s =
      ⟨{ setShift e s with lastKey := some (e.vkCode, e.scanCode), composeKeys := [], composeDepth := 0, composition := [] },
       [Effect.notify "key", Effect.sendInput [r], Effect.notify "done"], true⟩ := by
  have hup : isKeyUp e.flags = false := by simp [isKeyUp, hd]
  have hdepth : s.composeDepth ≠ 0 := by rw [hdep1]; decide
  unfold proc procCore
  dsimp only
  rw [ht]
  dsimp only
  simp only [setShift_composeDepth, setShift_targetWindow, setShift_composeKeys,
    setShift_lastKey, setShift_composition, htw, hup, hni, hk, hdepth, hdep1, hcomp]
  rw [if_neg (by simp), if_neg (by simp), if_neg (by simp), if_neg hh]
  rw [if_pos (by exact ⟨trivial, by decide⟩)]
  rw [if_neg he, if_pos (by simp)]
  unfold compose doneComposing sendInput
  simp [htab]

theorem proc_second_key_miss (cfg : HookConfig) (fg : Nat) (e : KeyEvent)
    (s : ComposeState) (k o : Nat)
    (htw : s.targetWindow = some fg)
    (hdep1 : s.composeDepth = 1)
    (hk : s.composeKeys = [k])
    (hcomp : s.composition = [])
    (hd : isKeyDown e.flags = true)
    (hni : e.flags &&& LLKHF_INJECTED = 0)
    (hh : e.vkCode ≠ cfg.hotKey)
    (he : e.vkCode ≠ VK_ESCAPE)
    (ht : translateKey cfg (setShift e s).keyboardState e.vkCode e.scanCode = (o, true))
    (htab : cfg.compositions [k, o] = none) :
    proc cfg fg e s =
      ⟨{ setShift e s with lastKey := some (e.vkCode, e.scanCode), composeKeys := [], composeDepth := 0, composition := [] },
       [Effect.notify "key", Effect.beep, Effect.notify "done"], true⟩ := by
  have hup : isKeyUp e.flags = false := by simp [isKeyUp, hd]
  have hdepth : s.composeDepth ≠ 0 := by rw [hdep1]; decide
  unfold proc procCore
  dsimp only
  rw [ht]
  dsimp only
  simp only [setShift_composeDepth, setShift_targetWindow, setShift_composeKeys,
    setShift_lastKey, setShift_composition, htw, hup, hni, hk, hdepth, hdep1, hcomp]
  rw [if_neg (by simp), if_neg (by simp), if_neg (by simp), if_neg hh]
  rw [if_pos (by exact ⟨trivial, by decide⟩)]
  rw [if_neg he, if_pos (by simp)]
  unfold compose doneComposing sendInput
  simp [htab]

theorem proc_depth_invariant_step (cfg : HookConfig) (fg : Nat) (e : KeyEvent)
    (s : ComposeState)
    (h : s.composeDepth = 0 ∨ s.composeDepth = 1) :
    (proc cfg fg e s).state.composeDepth = 0 ∨
      (proc cfg fg e s).state.composeDepth = 1 := by
  have hs : (setShift e s).composeDepth = 0 ∨ (setShift e s).composeDepth = 1 := by
    rw [setShift_composeDepth]; exact h
  unfold proc procCore
  dsimp only
  generalize setShift e s = t at hs
  split_ifs with h1 h2 h3 h4 h5 h6 h7
  · left; rfl
  · exact hs
  · simpa using hs
  · exact hs
  · right; rfl
  · left; rfl
  · left
    rw [compose_composeDepth]
    rcases hs with h0 | hone
    · exact absurd h0 (by simpa using h6.2)
    · simp [hone]
  · simpa using hs
  · exact hs

/-- C1: the claim says a hotkey press at composeDepth 1 increments the depth
to 2, keeps the outer level's partial composeKeys, and defers the flush to
the outer resolution. The code instead trashes all composing state
(`startComposing` calls `stopComposing` first): evaluated at a depth-1 state
with a buffered key, the hotkey press leaves composeDepth at 1, empties the
buffer, and fires `done` followed by `start`. This contradicts the class
docstring's promise that nested compositions are supported, so the claim is
right about the intent and the code is wrong. -/
theorem C1_second_hotkey_press_restarts_not_nests :
    (proc exCfg 5 evHot exBuf1).consumed = true ∧
    (proc exCfg 5 evHot exBuf1).state.composeDepth = 1 ∧
    (proc exCfg 5 evHot exBuf1).state.composeKeys = [] ∧
    (proc exCfg 5 evHot exBuf1).state.composition = [] ∧
    (proc exCfg 5 evHot exBuf1).effects =
      [Effect.notify "done", Effect.notify "start"] := by
  refine ⟨rfl, by decide, rfl, rfl, rfl⟩

/-- C2 counterexample: an injected key-down whose translated ordinal 98
completes the buffered pair (97, 98) — a pair present in the table — is
consumed and appended, but the composition is NOT resolved: composeDepth
stays 1, no lookup result is queued, and no effect fires, refuting the
claim's assertion that completing the pair via an injected event resolves
the level just as a physical second key would. -/
theorem C2_injected_pair_completion_unresolved :
    exCfg.compositions [97, 98] = some 230 ∧
    exBuf1.composeKeys = [97] ∧
    (proc exCfg 5 evInjB exBuf1).consumed = true ∧
    (proc exCfg 5 evInjB exBuf1).state.composeKeys = [97, 98] ∧
    (proc exCfg 5 evInjB exBuf1).state.composeDepth = 1 ∧
    (proc exCfg 5 evInjB exBuf1).state.composition = [] ∧
    (proc exCfg 5 evInjB exBuf1).effects = [] := by
  refine ⟨by decide, rfl, rfl, rfl, by decide, rfl, rfl⟩

/-- C2 (amended): every injected-flagged event handled while composeDepth >
0, with the foreground window still matching targetWindow and the redundant
key-up suppression not applying, is consumed and its translated ordinal is
appended to the current composeKeys; the append never triggers resolution —
composeDepth and the pending composition are unchanged and no collaborator
call fires, even if the buffer now holds two entries. -/
theorem C2_injected_consumed_appended_no_resolution (cfg : HookConfig) (fg : Nat)
    (e : KeyEvent) (s : ComposeState) (tkey : Nat) (tr : Bool)
    (hinj : e.flags &&& LLKHF_INJECTED ≠ 0)
    (hdepth : 0 < s.composeDepth)
    (htw : s.targetWindow = some fg)
    (ht : translateKey cfg (setShift e s).keyboardState e.vkCode e.scanCode = (tkey, tr))
    (hsup : ¬(isKeyUp e.flags = true ∧
      (some (e.vkCode, e.scanCode) = s.lastKey ∨ tkey ∈ s.composeKeys))) :
    (proc cfg fg e s).consumed = true ∧
    (proc cfg fg e s).state.composeKeys = s.composeKeys ++ [tkey] ∧
    (proc cfg fg e s).state.composeDepth = s.composeDepth ∧
    (proc cfg fg e s).state.composition = s.composition ∧
    (proc cfg fg e s).effects = [] := by
  unfold proc procCore
  dsimp only
  rw [ht]
  dsimp only
  rw [if_neg (by simp [setShift_composeDepth, setShift_targetWindow, htw])]
  rw [if_neg (by simpa [setShift_lastKey, setShift_composeKeys] using hsup)]
  rw [if_pos hinj, if_pos (by rw [setShift_composeDepth]; exact hdepth.ne')]
  exact ⟨rfl, by simp [setShift_composeKeys], by simp [setShift_composeDepth],
    by simp [setShift_composition], rfl⟩

/-- C2 witness: the amended theorem applied at the concrete injected event
completing the pair. -/
theorem C2_injected_append_witness :
    (proc exCfg 5 evInjB exBuf1).consumed = true ∧
    (proc exCfg 5 evInjB exBuf1).state.composeKeys = [97, 98] :=
  ⟨(C2_injected_consumed_appended_no_resolution exCfg 5 evInjB exBuf1 98 true
      (by decide) (by decide) rfl rfl (by decide)).1,
   (C2_injected_consumed_appended_no_resolution exCfg 5 evInjB exBuf1 98 true
      (by decide) (by decide) rfl rfl (by decide)).2.1⟩

/-- C3: starting at composeDepth 1 with empty buffers and matching focus,
feeding two successfully translated, non-cancel, non-hotkey, non-injected
key-down events whose ordinal pair is in the table yields: first event
consumed with only a `key` notification; second event consumed, composeDepth
back to 0, and the trace `key`, a single `sendInput` carrying exactly the
table's result, then `done` — in particular `inject` fires exactly once with
exactly the table's result and the failure beep never fires. -/
theorem C3_pair_in_table_injects_once (cfg : HookConfig) (fg : Nat)
    (s : ComposeState) (e1 e2 : KeyEvent) (o1 o2 r : Nat)
    (hdep1 : s.composeDepth = 1) (hk : s.composeKeys = []) (hcomp : s.composition = [])
    (htw : s.targetWindow = some fg)
    (hd1 : isKeyDown e1.flags = true) (hd2 : isKeyDown e2.flags = true)
    (hni1 : e1.flags &&& LLKHF_INJECTED = 0) (hni2 : e2.flags &&& LLKHF_INJECTED = 0)
    (hh1 : e1.vkCode ≠ cfg.hotKey) (hh2 : e2.vkCode ≠ cfg.hotKey)
    (he1 : e1.vkCode ≠ VK_ESCAPE) (he2 : e2.vkCode ≠ VK_ESCAPE)
    (ht1 : translateKey cfg (setShift e1 s).keyboardState e1.vkCode e1.scanCode = (o1, true))
    (ht2 : translateKey cfg (setShift e2 (proc cfg fg e1 s).state).keyboardState e2.vkCode e2.scanCode = (o2, true))
    (htab : cfg.compositions [o1, o2] = some r) :
    (proc cfg fg e1 s).consumed = true ∧
    (proc cfg fg e1 s).effects = [Effect.notify "key"] ∧
    (proc cfg fg e2 (proc cfg fg e1 s).state).consumed = true ∧
    (proc cfg fg e2 (proc cfg fg e1 s).state).state.composeDepth = 0 ∧
    (proc cfg fg e2 (proc cfg fg e1 s).state).effects =
      [Effect.notify "key", Effect.sendInput [r], Effect.notify "done"] := by
  have h1 := proc_first_key cfg fg e1 s o1 htw (by rw [hdep1]; decide) hk hd1 hni1 hh1 he1 ht1
  have h2 := proc_second_key_hit cfg fg e2 (proc cfg fg e1 s).state o1 o2 r
      (by rw [h1]; simpa [setShift_targetWindow] using htw)
      (by rw [h1]; simpa [setShift_composeDepth] using hdep1)
      (by rw [h1])
      (by rw [h1]; simpa [setShift_composition] using hcomp)
      hd2 hni2 hh2 he2 ht2 htab
  exact ⟨by rw [h1], by rw [h1], by rw [h2], by rw [h2], by rw [h2]⟩

/-- C3 witness: the run hotkey-a-b under `exCfg` injects exactly [230]. -/
theorem C3_pair_in_table_witness :
    (proc exCfg 5 evA exDepth1).effects = [Effect.notify "key"] ∧
    (proc exCfg 5 evB (proc exCfg 5 evA exDepth1).state).state.composeDepth = 0 ∧
    (proc exCfg 5 evB (proc exCfg 5 evA exDepth1).state).effects =
      [Effect.notify "key", Effect.sendInput [230], Effect.notify "done"] := by
  have h := C3_pair_in_table_injects_once exCfg 5 exDepth1 evA evB 97 98 230
    rfl rfl rfl rfl (by decide) (by decide) (by decide) (by decide)
    (by decide) (by decide) (by decide) (by decide) rfl (by decide) (by decide)
  exact ⟨h.2.1, h.2.2.2.1, h.2.2.2.2⟩

/-- C4: as C3 but with the ordinal pair absent from the table: the failure
beep fires exactly once, no `sendInput` occurs (the pending composition was
and stays empty), composeDepth returns to 0 and `done` fires. -/
theorem C4_pair_absent_beeps_no_inject (cfg : HookConfig) (fg : Nat)
    (s : ComposeState) (e1 e2 : KeyEvent) (o1 o2 : Nat)
    (hdep1 : s.composeDepth = 1) (hk : s.composeKeys = []) (hcomp : s.composition = [])
    (htw : s.targetWindow = some fg)
    (hd1 : isKeyDown e1.flags = true) (hd2 : isKeyDown e2.flags = true)
    (hni1 : e1.flags &&& LLKHF_INJECTED = 0) (hni2 : e2.flags &&& LLKHF_INJECTED = 0)
    (hh1 : e1.vkCode ≠ cfg.hotKey) (hh2 : e2.vkCode ≠ cfg.hotKey)
    (he1 : e1.vkCode ≠ VK_ESCAPE) (he2 : e2.vkCode ≠ VK_ESCAPE)
    (ht1 : translateKey cfg (setShift e1 s).keyboardState e1.vkCode e1.scanCode = (o1, true))
    (ht2 : translateKey cfg (setShift e2 (proc cfg fg e1 s).state).keyboardState e2.vkCode e2.scanCode = (o2, true))
    (htab : cfg.compositions [o1, o2] = none) :
    (proc cfg fg e1 s).consumed = true ∧
    (proc cfg fg e1 s).effects = [Effect.notify "key"] ∧
    (proc cfg fg e2 (proc cfg fg e1 s).state).consumed = true ∧
    (proc cfg fg e2 (proc cfg fg e1 s).state).state.composeDepth = 0 ∧
    (proc cfg fg e2 (proc cfg fg e1 s).state).effects =
      [Effect.notify "key", Effect.beep, Effect.notify "done"] := by
  have h1 := proc_first_key cfg fg e1 s o1 htw (by rw [hdep1]; decide) hk hd1 hni1 hh1 he1 ht1
  have h2 := proc_second_key_miss cfg fg e2 (proc cfg fg e1 s).state o1 o2
      (by rw [h1]; simpa [setShift_targetWindow] using htw)
      (by rw [h1]; simpa [setShift_composeDepth] using hdep1)
      (by rw [h1])
      (by rw [h1]; simpa [setShift_composition] using hcomp)
      hd2 hni2 hh2 he2 ht2 htab
  exact ⟨by rw [h1], by rw [h1], by rw [h2], by rw [h2], by rw [h2]⟩

/-- C4 witness: the run hotkey-b-a under `exCfg` (pair (98, 97) absent)
beeps once and injects nothing. -/
theorem C4_pair_absent_witness :
    (proc exCfg 5 evA (proc exCfg 5 evB exDepth1).state).state.composeDepth = 0 ∧
    (proc exCfg 5 evA (proc exCfg 5 evB exDepth1).state).effects =
      [Effect.notify "key", Effect.beep, Effect.notify "done"] := by
  have h := C4_pair_absent_beeps_no_inject exCfg 5 exDepth1 evB evA 98 97
    rfl rfl rfl rfl (by decide) (by decide) (by decide) (by decide)
    (by decide) (by decide) (by decide) (by decide) rfl (by decide) (by decide)
  exact ⟨h.2.2.2.1, h.2.2.2.2⟩

/-- C5: any event handled while composeDepth > 0 with the current foreground
window differing from targetWindow is reported not consumed, and before any
further classification the composition is fully aborted: composeKeys and the
pending composition are cleared, composeDepth resets to 0, and `done` is the
only effect fired. -/
theorem C5_focus_change_aborts (cfg : HookConfig) (fg : Nat) (e : KeyEvent)
    (s : ComposeState)
    (hdepth : 0 < s.composeDepth) (htw : s.targetWindow ≠ some fg) :
    (proc cfg fg e s).consumed = false ∧
    (proc cfg fg e s).state.composeKeys = [] ∧
    (proc cfg fg e s).state.composition = [] ∧
    (proc cfg fg e s).state.composeDepth = 0 ∧
    (proc cfg fg e s).effects = [Effect.notify "done"] := by
  unfold proc procCore
  dsimp only
  rw [if_pos ⟨by rw [setShift_composeDepth]; exact hdepth.ne',
              by rw [setShift_targetWindow]; exact htw⟩]
  exact ⟨rfl, rfl, rfl, rfl, rfl⟩

/-- C5 witness: the focus-loss abort applied at foreground window 9 while
the target window is 5. -/
theorem C5_focus_change_witness :
    (proc exCfg 9 evA exBuf1).consumed = false ∧
    (proc exCfg 9 evA exBuf1).state.composeDepth = 0 ∧
    (proc exCfg 9 evA exBuf1).effects = [Effect.notify "done"] := by
  have h := C5_focus_change_aborts exCfg 9 evA exBuf1 (by decide) (by decide)
  exact ⟨h.1, h.2.2.2.1, h.2.2.2.2⟩

/-- C6 counterexample: with the left shift key configured as the hotkey, the
key-up of the shift that started the composition matches `_lastKey`, so the
redundant key-up suppression fires and the call is consumed — but the
ShiftState was mutated first (the left-shift slot goes from 128 to 0), so
the Composer state is NOT unchanged by the call, refuting the claim's
inclusion of ShiftState among the unchanged components. -/
theorem C6_shift_keyup_suppression_mutates_shift_state :
    isKeyUp evShiftUp.flags = true ∧
    some (evShiftUp.vkCode, evShiftUp.scanCode) = exShiftHeld.lastKey ∧
    (proc cfgShiftHot 3 evShiftUp exShiftHeld).consumed = true ∧
    (proc cfgShiftHot 3 evShiftUp exShiftHeld).state.keyboardState VK_LSHIFT ≠
      exShiftHeld.keyboardState VK_LSHIFT := by
  refine ⟨by decide, rfl, rfl, by decide⟩

/-- C6 (amended): a key-up whose raw key equals the last tracked key-down or
whose translated ordinal is already buffered, handled while no focus-loss
abort applies, is consumed with no state change beyond the shift-tracking
step: the resulting state is exactly `setShift` of the input state (so
composeDepth, composeKeys, pendingOutput, targetWindow and lastPhysicalKey
are unchanged, and ShiftState differs only by the already-performed shift
update), and no collaborator call fires. -/
theorem C6_suppressed_keyup_only_shift_updated (cfg : HookConfig) (fg : Nat)
    (e : KeyEvent) (s : ComposeState) (tkey : Nat) (tr : Bool)
    (hup : isKeyUp e.flags = true)
    (ht : translateKey cfg (setShift e s).keyboardState e.vkCode e.scanCode = (tkey, tr))
    (hmatch : some (e.vkCode, e.scanCode) = s.lastKey ∨ tkey ∈ s.composeKeys)
    (hfocus : ¬(s.composeDepth ≠ 0 ∧ s.targetWindow ≠ some fg)) :
    (proc cfg fg e s).consumed = true ∧
    (proc cfg fg e s).state = setShift e s ∧
    (proc cfg fg e s).effects = [] ∧
    (proc cfg fg e s).state.composeDepth = s.composeDepth ∧
    (proc cfg fg e s).state.composeKeys = s.composeKeys ∧
    (proc cfg fg e s).state.composition = s.composition ∧
    (proc cfg fg e s).state.targetWindow = s.targetWindow ∧
    (proc cfg fg e s).state.lastKey = s.lastKey := by
  unfold proc procCore
  dsimp only
  rw [ht]
  dsimp only
  rw [if_neg (by simpa [setShift_composeDepth, setShift_targetWindow] using hfocus)]
  rw [if_pos ⟨hup, by simpa [setShift_lastKey, setShift_composeKeys] using hmatch⟩]
  exact ⟨rfl, rfl, rfl, setShift_composeDepth e s, setShift_composeKeys e s,
    setShift_composition e s, setShift_targetWindow e s, setShift_lastKey e s⟩

/-- C6 witness: the amended theorem applied at the shift key-up instance. -/
theorem C6_suppressed_keyup_witness :
    (proc cfgShiftHot 3 evShiftUp exShiftHeld).consumed = true ∧
    (proc cfgShiftHot 3 evShiftUp exShiftHeld).state.composeKeys =
      exShiftHeld.composeKeys := by
  have h := C6_suppressed_keyup_only_shift_updated cfgShiftHot 3 evShiftUp
    exShiftHeld 160 false (by decide) rfl (by left; rfl) (by decide)
  exact ⟨h.1, h.2.2.2.2.1⟩

/-- C7: a non-injected event handled while composing (composeDepth > 0, same
foreground window) whose translation fails — `translateKey` returning the
raw vkCode with ok = false — and which is neither the hotkey nor a
suppressed key-up, appends nothing to composeKeys, is reported not consumed,
fires no collaborator call, and leaves the composition open: composeDepth,
composeKeys and the pending composition are unchanged. -/
theorem C7_untranslated_passthrough (cfg : HookConfig) (fg : Nat) (e : KeyEvent)
    (s : ComposeState)
    (_hdepth : 0 < s.composeDepth)
    (hni : e.flags &&& LLKHF_INJECTED = 0)
    (htw : s.targetWindow = some fg)
    (hh : e.vkCode ≠ cfg.hotKey)
    (ht : translateKey cfg (setShift e s).keyboardState e.vkCode e.scanCode = (e.vkCode, false))
    (hsup : ¬(isKeyUp e.flags = true ∧
      (some (e.vkCode, e.scanCode) = s.lastKey ∨ e.vkCode ∈ s.composeKeys))) :
    (proc cfg fg e s).consumed = false ∧
    (proc cfg fg e s).state.composeKeys = s.composeKeys ∧
    (proc cfg fg e s).state.composeDepth = s.composeDepth ∧
    (proc cfg fg e s).state.composition = s.composition ∧
    (proc cfg fg e s).effects = [] := by
  unfold proc procCore
  dsimp only
  rw [ht]
  dsimp only
  rw [if_neg (by simp [setShift_composeDepth, setShift_targetWindow, htw])]
  rw [if_neg (by simpa [setShift_lastKey, setShift_composeKeys] using hsup)]
  rw [if_neg (by simp [hni])]
  rw [if_neg hh]
  rw [if_neg (by simp)]
  exact ⟨rfl, by simp [setShift_composeKeys], by simp [setShift_composeDepth],
    by simp [setShift_composition], rfl⟩

/-- C7 witness: the untranslatable key 90 pressed mid-composition leaves the
buffer and depth unchanged and is not consumed. -/
theorem C7_untranslated_witness :
    (proc exCfg 5 evZ exBuf1).consumed = false ∧
    (proc exCfg 5 evZ exBuf1).state.composeKeys = exBuf1.composeKeys ∧
    (proc exCfg 5 evZ exBuf1).state.composeDepth = exBuf1.composeDepth := by
  have h := C7_untranslated_passthrough exCfg 5 evZ exBuf1 (by decide) (by decide)
    rfl (by decide) rfl (by decide)
  exact ⟨h.1, h.2.1, h.2.2.1⟩

/-- C8: `abortAll` (the `stopComposing` method) is idempotent from the
caller's perspective: for every state, a second consecutive call leaves
exactly the state of the first call, its only observable effect is another
`done` notification, and the first call already cleared all buffers and
zeroed composeDepth. -/
theorem C8_abortAll_idempotent (s : ComposeState) :
    (stopComposing (stopComposing s).1).1 = (stopComposing s).1 ∧
    (stopComposing (stopComposing s).1).2 = [Effect.notify "done"] ∧
    (stopComposing s).1.composeKeys = [] ∧
    (stopComposing s).1.composition = [] ∧
    (stopComposing s).1.composeDepth = 0 :=
  ⟨rfl, rfl, rfl, rfl, rfl⟩

/-- C9: after handling any event whose virtual-key is left or right shift,
the combined `VK_SHIFT` slot of the keyboard state equals the bitwise-or of
the left-shift and right-shift slots — already immediately after `setShift`,
and still after the whole call since classification never touches the
snapshot; and the shift update happens before translation: `proc` is
definitionally the classification applied to the `setShift`-updated state,
whose keyboard snapshot is what `translateKey` consults. -/
theorem C9_shift_slots_or_invariant (cfg : HookConfig) (fg : Nat) (e : KeyEvent)
    (s : ComposeState)
    (h : e.vkCode = VK_LSHIFT ∨ e.vkCode = VK_RSHIFT) :
    (setShift e s).keyboardState VK_SHIFT =
      (setShift e s).keyboardState VK_LSHIFT ||| (setShift e s).keyboardState VK_RSHIFT ∧
    (proc cfg fg e s).state.keyboardState VK_SHIFT =
      (proc cfg fg e s).state.keyboardState VK_LSHIFT |||
        (proc cfg fg e s).state.keyboardState VK_RSHIFT ∧
    proc cfg fg e s = procCore cfg fg e (setShift e s) := by
  have hks : (setShift e s).keyboardState VK_SHIFT =
      (setShift e s).keyboardState VK_LSHIFT ||| (setShift e s).keyboardState VK_RSHIFT := by
    unfold setShift
    rw [if_pos h]
    simp [Function.update, VK_SHIFT, VK_LSHIFT, VK_RSHIFT]
  have hp : (proc cfg fg e s).state.keyboardState = (setShift e s).keyboardState :=
    procCore_keyboardState cfg fg e (setShift e s)
  exact ⟨hks, by rw [hp]; exact hks, rfl⟩

/-- C9 witness: the invariant evaluated at a concrete left-shift key-up. -/
theorem C9_shift_slots_witness :
    (proc cfgShiftHot 3 evShiftUp exShiftHeld).state.keyboardState VK_SHIFT =
      (proc cfgShiftHot 3 evShiftUp exShiftHeld).state.keyboardState VK_LSHIFT |||
        (proc cfgShiftHot 3 evShiftUp exShiftHeld).state.keyboardState VK_RSHIFT := by
  exact (C9_shift_slots_or_invariant cfgShiftHot 3 evShiftUp exShiftHeld
    (Or.inl rfl)).2.1

/-- C10: in every state reachable from the initial state by any sequence of
`proc` (handle) and `stopComposing` (abortAll) calls, composeDepth is 0 or
1: `startComposing` zeroes the depth before incrementing, and the only
decrement (in `doneComposing`, reached via `compose`) happens under the
guard composeDepth differs from 0, so the depth never goes negative and never
exceeds 1. -/
theorem C10_depth_zero_or_one (cfg : HookConfig) (s : ComposeState)
    (h : Reachable cfg s) :
    s.composeDepth = 0 ∨ s.composeDepth = 1 := by
  induction h with
  | init ks => left; rfl
  | step fg e _ ih => exact proc_depth_invariant_step cfg fg e _ ih
  | abort _ _ => left; rfl

/-- C10 witness: the invariant at the initial state. -/
theorem C10_depth_zero_or_one_witness :
    Reachable exCfg (initState exKs) ∧
      ((initState exKs).composeDepth = 0 ∨ (initState exKs).composeDepth = 1) :=
  ⟨Reachable.init exKs,
   C10_depth_zero_or_one exCfg (initState exKs) (Reachable.init exKs)⟩

end Mozart
